import Mathlib

/-!
Shallow embedding of the ctrip payment-gateway core services
(`app/services/blockchain/scanner.py` and `app/services/webhook.py`)
together with proofs about the scan cycle, confirmation tracking,
expiry reaping and webhook signing.

Modelling conventions:
* hex addresses, ERC20 log topics and log data are natural numbers
  (the code always compares addresses lowercased, which corresponds to
  comparing their numeric values);
* timestamps and block numbers are natural numbers;
* the fallible RPC collaborator (`web3`) is a record of `Option`-valued
  calls, `none` standing for a raised exception on that call;
* Python dicts are association lists built by last-wins insertion, and
  the in-place mutation of ORM `Payment` objects followed by
  `session.commit()` is a merge-by-primary-key into the payment table.
-/

set_option autoImplicit false

namespace CTrip

/-- Payment lifecycle statuses, from `app/db/models/payment.py`. -/
inductive PaymentStatus where
  | pending
  | detected
  | confirmed
  | paid
  | expired
  | settled
  | failed
  deriving DecidableEq, Repr

/-- A row of the `payments` table (`app/db/models/payment.py`).
`confirmations` is an `Int` because Python computes it with signed
subtraction. -/
structure Payment where
  id : Nat
  token_id : Option Nat
  chain : String
  address : Nat
  amount : Nat
  status : PaymentStatus
  confirmations : Int
  detected_in_block : Option Nat
  expires_at : Nat
  deriving DecidableEq, Repr

/-- A row of the `chain_states` table (`app/db/models/chain.py`); the
`chain` column carries a uniqueness constraint. -/
structure ChainState where
  id : Nat
  chain : String
  last_scanned_block : Nat
  deriving DecidableEq, Repr

/-- A row of the `tokens` table (`app/db/models/token.py`), restricted to
the columns the scanner reads.  `address` is the ERC20 contract address. -/
structure Token where
  id : Nat
  chain : String
  address : Nat
  deriving DecidableEq, Repr

/-- A transaction inside a fetched block: `to_addr` models `tx.to`,
`none` for contract creations (`if not tx.to: continue`), `value` the
native amount. -/
structure Tx where
  to_addr : Option Nat
  value : Nat
  deriving DecidableEq, Repr

/-- An ERC20 `Transfer` event log as returned by `get_logs`:
emitting contract address, the topic words, and the data payload
(`none` models empty data bytes, which the code treats as value 0). -/
structure Log where
  address : Nat
  topics : List Nat
  data : Option Nat
  deriving DecidableEq, Repr

/-- A block fetched with `full_transactions=True`. -/
structure Block where
  transactions : List Tx
  deriving DecidableEq, Repr

/-- The `web3` RPC view of one chain.  Each field models one RPC call;
`none` models the call raising an exception. -/
structure ChainRPC where
  block_number : Option Nat
  get_block : Nat → Option Block
  get_logs : Nat → Option (List Log)

/-- The database state the scanner touches. -/
structure DB where
  chain_states : List ChainState
  payments : List Payment
  tokens : List Token
  deriving DecidableEq, Repr

/-- Lookup in an association list (a Python `dict` access). -/
def lookupA {α : Type} (k : Nat) : List (Nat × α) → Option α
  | [] => none
  | e :: rest => if e.1 = k then some e.2 else lookupA k rest

/-- Insert-or-replace in an association list (a Python `dict` update;
a later insertion for the same key overwrites the earlier one). -/
def insertA {α : Type} (k : Nat) (v : α) : List (Nat × α) → List (Nat × α)
  | [] => [(k, v)]
  | e :: rest => if e.1 = k then (k, v) :: rest else e :: insertA k v rest

/-- `PaymentScanContext` from `scanner.py`: pending native payments and
pending ERC20 payments keyed by (lowercased) deposit address, plus the
preloaded token rows keyed by token id. -/
structure PaymentScanContext where
  native_payments : List (Nat × Payment)
  erc20_payments : List (Nat × Payment)
  tokens : List (Nat × Token)

/-- `ScannerService._calculate_scan_range`: on an RPC failure for
`block_number` it returns the empty range `(last+1, last)`; otherwise
`from = last+1` and `to = min(from + block_batch_size, latest)`. -/
def calculate_scan_range (block_batch_size last_scanned_block : Nat)
    (block_number : Option Nat) : Nat × Nat :=
  match block_number with
  | none => (last_scanned_block + 1, last_scanned_block)
  | some latest =>
      (last_scanned_block + 1, min (last_scanned_block + 1 + block_batch_size) latest)

/-- Decoding of the indexed recipient of an ERC20 Transfer log:
`"0x" + log.topics[2].hex()[-40:]` keeps the low 20 bytes of the
32-byte topic word, i.e. the value modulo `2^160`. -/
def decode_topic_address (t : Nat) : Nat := t % 2 ^ 160

/-- The native-transfer loop of `ScannerService._scan_single_block`:
fold over the block's transactions, marking a pending native payment
DETECTED when the destination matches and `tx.value >= payment.amount`.
Returns the updated address dict and the detection count. -/
def detect_native_in_block (block_number : Nat) (txs : List Tx)
    (native : List (Nat × Payment)) : List (Nat × Payment) × Nat :=
  txs.foldl
    (fun acc tx =>
      match tx.to_addr with
      | none => acc
      | some addr =>
        match lookupA addr acc.1 with
        | none => acc
        | some payment =>
          if payment.amount ≤ tx.value then
            (insertA addr
              { payment with
                  status := PaymentStatus.detected,
                  detected_in_block := some block_number } acc.1,
             acc.2 + 1)
          else acc)
    (native, 0)

/-- The ERC20-log loop of `ScannerService._scan_single_block`: a log with
at least three topics whose decoded recipient is a pending token payment's
address, emitted by that payment's token contract, with decoded value at
least the requested amount, marks the payment DETECTED. -/
def detect_erc20_in_logs (block_number : Nat) (logs : List Log)
    (tokens : List (Nat × Token)) (erc20 : List (Nat × Payment)) :
    List (Nat × Payment) × Nat :=
  logs.foldl
    (fun acc log =>
      if log.topics.length < 3 then acc
      else
        let to_address := decode_topic_address (log.topics.getD 2 0)
        match lookupA to_address acc.1 with
        | none => acc
        | some payment =>
          match payment.token_id with
          | none => acc
          | some tid =>
            match lookupA tid tokens with
            | none => acc
            | some token =>
              if log.address = token.address then
                if payment.amount ≤ log.data.getD 0 then
                  (insertA to_address
                    { payment with
                        status := PaymentStatus.detected,
                        detected_in_block := some block_number } acc.1,
                   acc.2 + 1)
                else acc
              else acc)
    (erc20, 0)

/-- `ScannerService._scan_single_block`: any exception (block fetch or log
fetch) is caught and logged; native detections made before a log-fetch
failure are kept, and the block contributes its detection count so far. -/
def scan_single_block (w3 : ChainRPC) (block_number : Nat)
    (ctx : PaymentScanContext) : PaymentScanContext × Nat :=
  match w3.get_block block_number with
  | none => (ctx, 0)
  | some block =>
    let r1 := detect_native_in_block block_number block.transactions ctx.native_payments
    let ctx1 := { ctx with native_payments := r1.1 }
    if ctx1.erc20_payments.isEmpty then (ctx1, r1.2)
    else
      match w3.get_logs block_number with
      | none => (ctx1, r1.2)
      | some logs =>
        let r2 := detect_erc20_in_logs block_number logs ctx1.tokens ctx1.erc20_payments
        ({ ctx1 with erc20_payments := r2.1 }, r1.2 + r2.2)

/-- The block numbers handed to `_scan_single_block` for one cycle:
`range(from_block, to_block + 1)`. -/
def scanned_block_numbers (from_block to_block : Nat) : List Nat :=
  List.range' from_block (to_block + 1 - from_block)

/-- `ScannerService._scan_blocks_for_payments`, sequentialised in ascending
block order (the Python version runs the per-block coroutines under a
semaphore and sums their counts). -/
def scan_blocks_for_payments (w3 : ChainRPC) (from_block to_block : Nat)
    (ctx : PaymentScanContext) : PaymentScanContext × Nat :=
  (scanned_block_numbers from_block to_block).foldl
    (fun acc n =>
      let r := scan_single_block w3 n acc.1
      (r.1, acc.2 + r.2))
    (ctx, 0)

/-- Construction of the `PaymentScanContext` in `scan_chain`: partition the
pending payments into native and token dicts keyed by address, and preload
the token rows referenced by the token payments, keyed by id. -/
def build_context (payment_list : List Payment) (all_tokens : List Token) :
    PaymentScanContext :=
  let native := payment_list.foldl
    (fun m p => if p.token_id = none then insertA p.address p m else m) []
  let erc20 := payment_list.foldl
    (fun m p => if p.token_id ≠ none then insertA p.address p m else m) []
  let token_ids := erc20.filterMap (fun e => e.2.token_id)
  let tokens := (all_tokens.filter (fun t => token_ids.contains t.id)).foldl
    (fun m t => insertA t.id t m) []
  { native_payments := native, erc20_payments := erc20, tokens := tokens }

/-- `ScannerService._load_chain_state`: `scalar_one_or_none` over the rows
whose `chain` column matches (the column is unique, so `find?` models it). -/
def load_chain_state (chain_name : String) (db : DB) : Option ChainState :=
  db.chain_states.find? (fun s => s.chain = chain_name)

/-- Writing the cursor row back at commit. -/
def set_last_scanned (chain_name : String) (b : Nat)
    (states : List ChainState) : List ChainState :=
  states.map fun s =>
    if s.chain = chain_name then { s with last_scanned_block := b } else s

/-- Flushing the in-place mutations of the `Payment` ORM objects at
`session.commit()`: each table row whose primary key appears in the scan
context is replaced by the (possibly mutated) context object. -/
def commit_payments (ctx : PaymentScanContext) (payments : List Payment) :
    List Payment :=
  payments.map fun p =>
    match (ctx.native_payments ++ ctx.erc20_payments).find?
        (fun e => e.2.id = p.id) with
    | some e => e.2
    | none => p

/-- Errors a scan could signal.  `notFound` is the NotFound error of the
spec's cursor store; the implementation never raises it. -/
inductive ScanError where
  | notFound
  deriving DecidableEq, Repr

/-- How one `scan_chain` cycle ended. -/
inductive ScanOutcome where
  | skippedNoState
  | emptyRange
  | noActivePayments
  | scanned (detected : Nat)
  deriving DecidableEq, Repr

/-- `ScannerService.scan_chain`: load the cursor row (silently returning
when there is none), compute the range (returning on an empty range
without touching the cursor), select the PENDING payments of the chain
(advancing the cursor immediately when there are none), otherwise scan the
range and commit the cursor advance together with the payment updates. -/
def scan_chain (block_batch_size : Nat) (chain_name : String) (w3 : ChainRPC)
    (db : DB) : Except ScanError (ScanOutcome × DB) :=
  match load_chain_state chain_name db with
  | none => Except.ok (ScanOutcome.skippedNoState, db)
  | some state =>
    let fr := calculate_scan_range block_batch_size state.last_scanned_block
      w3.block_number
    if fr.2 < fr.1 then Except.ok (ScanOutcome.emptyRange, db)
    else
      let payment_list := db.payments.filter
        (fun p => p.status = PaymentStatus.pending ∧ p.chain = chain_name)
      if payment_list.isEmpty then
        Except.ok (ScanOutcome.noActivePayments,
          { db with chain_states := set_last_scanned chain_name fr.2 db.chain_states })
      else
        let ctx := build_context payment_list db.tokens
        let r := scan_blocks_for_payments w3 fr.1 fr.2 ctx
        Except.ok (ScanOutcome.scanned r.2,
          { db with
              chain_states := set_last_scanned chain_name fr.2 db.chain_states,
              payments := commit_payments r.1 db.payments })

/-- The per-payment body of the loop in `ScannerService.confirm_payments`:
a DETECTED payment of the chain with a recorded detection block gets
`confirmations = latest - detected_in_block + 1` (signed arithmetic) and
is promoted to CONFIRMED when that reaches the threshold; a DETECTED
payment with `detected_in_block` null is skipped (`continue`). -/
def confirm_rule (confirmations_required : Int) (chain_name : String)
    (latest_block : Nat) (p : Payment) : Payment :=
  if p.status = PaymentStatus.detected ∧ p.chain = chain_name then
    match p.detected_in_block with
    | none => p
    | some d =>
      let confirmations : Int := (latest_block : Int) - (d : Int) + 1
      if confirmations_required ≤ confirmations then
        { p with status := PaymentStatus.confirmed, confirmations := confirmations }
      else p
  else p

/-- `ScannerService.confirm_payments`: on an RPC failure fetching the chain
head it returns without changes; otherwise every DETECTED payment of the
chain is processed by `confirm_rule` and the session committed. -/
def confirm_payments (confirmations_required : Int) (chain_name : String)
    (latest_block : Option Nat) (db : DB) : DB :=
  match latest_block with
  | none => db
  | some latest =>
    { db with
        payments := db.payments.map (confirm_rule confirmations_required chain_name latest) }

/-- The per-payment body of `ScannerService.check_expired_payments`: the
query selects PENDING or DETECTED payments with `expires_at <= now`
(across all chains) and each selected payment is marked EXPIRED. -/
def expire_rule (now : Nat) (p : Payment) : Payment :=
  if (p.status = PaymentStatus.pending ∨ p.status = PaymentStatus.detected)
      ∧ p.expires_at ≤ now then
    { p with status := PaymentStatus.expired }
  else p

/-- `ScannerService.check_expired_payments`.  Note the function consults no
`ChainRPC` at all: expiry is decided purely from the clock and the table. -/
def check_expired_payments (now : Nat) (db : DB) : DB :=
  { db with payments := db.payments.map (expire_rule now) }

/-- The outbound HTTP request built by `WebhookService.send_webhook`.
`body` is the serialized JSON payload (`json.dumps`), sent verbatim as the
request content. -/
structure WebhookRequest where
  url : String
  body : String
  headers : List (String × String)
  timeout : Nat
  deriving DecidableEq, Repr

/-- `WebhookService.send_webhook`, up to the construction of the request:
`data` is the serialized payload, `hmac_sha256_hex` the stdlib
`hmac.new(secret, msg, sha256).hexdigest()` primitive (abstracted as a
function parameter), and the signature header is attached exactly when the
secret is truthy (present and non-empty). -/
def send_webhook (hmac_sha256_hex : String → String → String)
    (url data : String) (secret : Option String) : WebhookRequest :=
  let headers := [("Content-Type", "application/json")]
  let headers :=
    match secret with
    | some s =>
        if s = "" then headers
        else headers ++ [("X-Webhook-Signature", hmac_sha256_hex s data)]
    | none => headers
  { url := url, body := data, headers := headers, timeout := 10 }

/-- Association-list entries whose payments are drawn, by primary key,
from the payment list `L`. -/
def entries_from (L : List Payment) (m : List (Nat × Payment)) : Prop :=
  ∀ e ∈ m, ∃ q ∈ L, e.2.id = q.id

/-- Both dicts of a scan context drawn, by primary key, from `L`. -/
def ctx_entries (L : List Payment) (ctx : PaymentScanContext) : Prop :=
  entries_from L ctx.native_payments ∧ entries_from L ctx.erc20_payments

/-! ### Concrete instances used to exercise the theorems -/

/-- A chain-state row with cursor 10, as in the spec's batching scenario. -/
def c1_state : ChainState := { id := 1, chain := "eth", last_scanned_block := 10 }

/-- A database holding only that cursor row. -/
def c1_db : DB := { chain_states := [c1_state], payments := [], tokens := [] }

/-- An RPC view whose chain head is 50 and whose block fetches all fail
(no payments are pending, so no block is fetched). -/
def c1_w3 : ChainRPC :=
  { block_number := some 50, get_block := fun _ => none, get_logs := fun _ => none }

/-- An empty database: no chain was ever seeded. -/
def c8_db : DB := { chain_states := [], payments := [], tokens := [] }

/-- An RPC view for a healthy chain at height 100. -/
def c8_w3 : ChainRPC :=
  { block_number := some 100, get_block := fun _ => none, get_logs := fun _ => none }

/-- A DETECTED payment found in block 100. -/
def c4_p : Payment :=
  { id := 2, token_id := none, chain := "eth", address := 5, amount := 100,
    status := PaymentStatus.detected, confirmations := 0,
    detected_in_block := some 100, expires_at := 1000 }

/-- A database holding only `c4_p`. -/
def c4_db : DB := { chain_states := [], payments := [c4_p], tokens := [] }

/-- A PENDING payment expiring at time 1000. -/
def c7_p : Payment :=
  { id := 3, token_id := none, chain := "eth", address := 6, amount := 40,
    status := PaymentStatus.pending, confirmations := 0,
    detected_in_block := none, expires_at := 1000 }

/-- A table with a PENDING payment past expiry and a DETECTED one. -/
def c7_db : DB := { chain_states := [], payments := [c7_p, c4_p], tokens := [] }

/-- A DETECTED payment whose detection block was never recorded. -/
def c10_p : Payment :=
  { id := 4, token_id := none, chain := "eth", address := 7, amount := 10,
    status := PaymentStatus.detected, confirmations := 0,
    detected_in_block := none, expires_at := 1000 }

/-- A table holding the null-detection-block payment next to `c4_p`. -/
def c10_db : DB := { chain_states := [], payments := [c10_p, c4_p], tokens := [] }

/-- A pending native payment awaiting 100 wei at address 5. -/
def c2_p : Payment :=
  { id := 1, token_id := none, chain := "eth", address := 5, amount := 100,
    status := PaymentStatus.pending, confirmations := 0,
    detected_in_block := none, expires_at := 1000 }

/-- A database with the cursor at 10 and one pending payment. -/
def c2_db : DB := { chain_states := [c1_state], payments := [c2_p], tokens := [] }

/-- An RPC view at height 12 where fetching block 11 raises while block 12
succeeds (empty). -/
def c2_w3 : ChainRPC :=
  { block_number := some 12,
    get_block := fun n => if n = 11 then none else some { transactions := [] },
    get_logs := fun _ => none }

/-- An RPC view whose height query itself raises. -/
def c2_w3_down : ChainRPC :=
  { block_number := none, get_block := fun _ => none, get_logs := fun _ => none }

/-- A payment already DETECTED in an earlier scan of block 7. -/
def c3_det : Payment :=
  { id := 10, token_id := none, chain := "eth", address := 8, amount := 100,
    status := PaymentStatus.detected, confirmations := 0,
    detected_in_block := some 7, expires_at := 1000 }

/-- A table holding the already-DETECTED payment next to a PENDING one,
with the cursor at 10 so that a rescan overlaps block 7's neighbourhood. -/
def c3_db : DB := { chain_states := [c1_state], payments := [c3_det, c2_p], tokens := [] }

/-- A pending ERC20 payment at address `A` expecting `a` base units of
token 7, expiring at `e`. -/
def c9_payment (A a e : Nat) : Payment :=
  { id := 1, token_id := some 7, chain := "eth", address := A, amount := a,
    status := PaymentStatus.pending, confirmations := 0,
    detected_in_block := none, expires_at := e }

/-- The token row for token 7 with contract address `contract`. -/
def c9_token (contract : Nat) : Token :=
  { id := 7, chain := "eth", address := contract }

/-- An ERC20 Transfer log emitted by `contract` whose third topic is `t`
and whose data decodes to `v`. -/
def c9_log (contract t0 t1 t v : Nat) : Log :=
  { address := contract, topics := [t0, t1, t], data := some v }

/-- A database with the cursor at 4, the pending token payment and its
token row. -/
def c9_db (A a e contract : Nat) : DB :=
  { chain_states := [{ id := 1, chain := "eth", last_scanned_block := 4 }],
    payments := [c9_payment A a e], tokens := [c9_token contract] }

/-- An RPC view at height 5 whose block 5 has no native transactions and
whose Transfer-topic log filter returns exactly `c9_log` at block 5. -/
def c9_w3 (contract t0 t1 t v : Nat) : ChainRPC :=
  { block_number := some 5,
    get_block := fun _ => some { transactions := [] },
    get_logs := fun n => if n = 5 then some [c9_log contract t0 t1 t v] else none }

/-! ### General lemmas about the embedding -/

/-- A fold preserves any invariant its step preserves. -/
theorem foldl_preserves {α β : Type} (P : β → Prop) (f : β → α → β)
    (h : ∀ (bb : β) (a : α), P bb → P (f bb a)) :
    ∀ (l : List α) (bb : β), P bb → P (l.foldl f bb)
  | [], _, hb => hb
  | a :: l, bb, hb => foldl_preserves P f h l (f bb a) (h bb a hb)

/-- A fold over a sublist of `L` preserves any invariant its step
preserves for elements of `L`. -/
theorem foldl_preserves_mem {α β : Type} (P : β → Prop) (f : β → α → β)
    (L : List α) (h : ∀ (bb : β) (a : α), a ∈ L → P bb → P (f bb a)) :
    ∀ (l : List α), (∀ a ∈ l, a ∈ L) → ∀ (bb : β), P bb → P (l.foldl f bb)
  | [], _, _, hb => hb
  | a :: l, hsub, bb, hb =>
      foldl_preserves_mem P f L h l
        (fun x hx => hsub x (List.mem_cons_of_mem _ hx))
        (f bb a) (h bb a (hsub a (List.mem_cons_self _ _)) hb)

/-- A successful dict lookup is a membership. -/
theorem lookupA_mem {α : Type} (k : Nat) (v : α) :
    ∀ m : List (Nat × α), lookupA k m = some v → (k, v) ∈ m := by
  intro m
  induction m with
  | nil => intro h; simp [lookupA] at h
  | cons e rest ih =>
    intro h
    rw [lookupA] at h
    by_cases hk : e.1 = k
    · rw [if_pos hk] at h
      injection h with hv
      subst hv
      subst hk
      exact List.mem_cons_self _ _
    · rw [if_neg hk] at h
      exact List.mem_cons_of_mem _ (ih h)

/-- Members of an insert-or-replace come from the inserted pair or the
original dict. -/
theorem insertA_mem {α : Type} (k : Nat) (v : α) (x : Nat × α) :
    ∀ m : List (Nat × α), x ∈ insertA k v m → x = (k, v) ∨ x ∈ m := by
  intro m
  induction m with
  | nil =>
    intro h
    rw [insertA] at h
    exact Or.inl (List.mem_singleton.mp h)
  | cons e rest ih =>
    intro h
    rw [insertA] at h
    by_cases hk : e.1 = k
    · rw [if_pos hk] at h
      rcases List.mem_cons.mp h with h1 | h2
      · exact Or.inl h1
      · exact Or.inr (List.mem_cons_of_mem _ h2)
    · rw [if_neg hk] at h
      rcases List.mem_cons.mp h with h1 | h2
      · exact Or.inr (List.mem_cons.mpr (Or.inl h1))
      · rcases ih h2 with h3 | h4
        · exact Or.inl h3
        · exact Or.inr (List.mem_cons_of_mem _ h4)

/-- Inserting a payment whose id is drawn from `L` keeps the dict drawn
from `L`. -/
theorem entries_from_insert (L : List Payment) (m : List (Nat × Payment))
    (k : Nat) (v : Payment) (hm : entries_from L m)
    (hv : ∃ q ∈ L, v.id = q.id) : entries_from L (insertA k v m) := by
  intro e he
  rcases insertA_mem k v e m he with h1 | h2
  · rcases hv with ⟨q, hq, hidq⟩
    exact ⟨q, hq, by rw [h1]; exact hidq⟩
  · exact hm e h2

/-- The native-transfer loop only rewrites payments already in the dict:
ids keep coming from `L`. -/
theorem detect_native_entries (L : List Payment) (n : Nat) (txs : List Tx)
    (native : List (Nat × Payment)) (hm : entries_from L native) :
    entries_from L (detect_native_in_block n txs native).1 := by
  unfold detect_native_in_block
  refine foldl_preserves (fun acc => entries_from L acc.1) _ ?_ txs (native, 0) hm
  intro acc tx hacc
  cases htx : tx.to_addr with
  | none => simpa [htx] using hacc
  | some addr =>
    simp only [htx]
    cases hlk : lookupA addr acc.1 with
    | none => simpa [hlk] using hacc
    | some payment =>
      simp only [hlk]
      by_cases hamt : payment.amount ≤ tx.value
      · rw [if_pos hamt]
        refine entries_from_insert L acc.1 addr _ hacc ?_
        rcases hacc (addr, payment) (lookupA_mem addr payment acc.1 hlk) with ⟨q, hq, hidq⟩
        exact ⟨q, hq, hidq⟩
      · rw [if_neg hamt]
        exact hacc

/-- The ERC20-log loop only rewrites payments already in the dict: ids
keep coming from `L`. -/
theorem detect_erc20_entries (L : List Payment) (n : Nat) (logs : List Log)
    (tokens : List (Nat × Token)) (erc20 : List (Nat × Payment))
    (hm : entries_from L erc20) :
    entries_from L (detect_erc20_in_logs n logs tokens erc20).1 := by
  unfold detect_erc20_in_logs
  refine foldl_preserves (fun acc => entries_from L acc.1) _ ?_ logs (erc20, 0) hm
  intro acc log hacc
  by_cases hlen : log.topics.length < 3
  · simpa [hlen] using hacc
  · simp only [if_neg hlen]
    cases hlk : lookupA (decode_topic_address (log.topics.getD 2 0)) acc.1 with
    | none => simpa [hlk] using hacc
    | some payment =>
      simp only [hlk]
      cases htid : payment.token_id with
      | none => simpa using hacc
      | some tid =>
        simp only
        cases htok : lookupA tid tokens with
        | none => simpa [htok] using hacc
        | some token =>
          simp only [htok]
          by_cases haddr : log.address = token.address
          · rw [if_pos haddr]
            by_cases hamt : payment.amount ≤ log.data.getD 0
            · rw [if_pos hamt]
              refine entries_from_insert L acc.1 _ _ hacc ?_
              rcases hacc (decode_topic_address (log.topics.getD 2 0), payment)
                  (lookupA_mem _ payment acc.1 hlk) with ⟨q, hq, hidq⟩
              exact ⟨q, hq, hidq⟩
            · rw [if_neg hamt]
              exact hacc
          · rw [if_neg haddr]
            exact hacc

/-- One block's scan keeps both dicts drawn from `L`. -/
theorem scan_single_block_entries (L : List Payment) (w3 : ChainRPC) (n : Nat)
    (ctx : PaymentScanContext) (hc : ctx_entries L ctx) :
    ctx_entries L (scan_single_block w3 n ctx).1 := by
  unfold scan_single_block
  cases hb : w3.get_block n with
  | none => simpa [hb] using hc
  | some block =>
    simp only [hb]
    have hnat := detect_native_entries L n block.transactions ctx.native_payments hc.1
    by_cases he : ctx.erc20_payments.isEmpty
    · simp only [he]
      exact ⟨hnat, hc.2⟩
    · simp only [he]
      cases hl : w3.get_logs n with
      | none => exact ⟨hnat, hc.2⟩
      | some logs =>
        simp only [hl]
        exact ⟨hnat, detect_erc20_entries L n logs ctx.tokens ctx.erc20_payments hc.2⟩

/-- A whole range scan keeps both dicts drawn from `L`. -/
theorem scan_blocks_entries (L : List Payment) (w3 : ChainRPC)
    (from_block to_block : Nat) (ctx : PaymentScanContext)
    (hc : ctx_entries L ctx) :
    ctx_entries L (scan_blocks_for_payments w3 from_block to_block ctx).1 := by
  unfold scan_blocks_for_payments
  refine foldl_preserves (fun acc => ctx_entries L acc.1) _ ?_
    (scanned_block_numbers from_block to_block) (ctx, 0) hc
  intro acc n hacc
  exact scan_single_block_entries L w3 n acc.1 hacc

/-- The freshly built scan context is drawn from the selected payments. -/
theorem build_context_entries (L : List Payment) (T : List Token) :
    ctx_entries L (build_context L T) := by
  constructor
  · show entries_from L (L.foldl
      (fun m p => if p.token_id = none then insertA p.address p m else m) [])
    refine foldl_preserves_mem (fun m => entries_from L m) _ L ?_ L
      (fun a ha => ha) [] ?_
    · intro m p hp hm
      by_cases ht : p.token_id = none
      · rw [if_pos ht]
        exact entries_from_insert L m p.address p hm ⟨p, hp, rfl⟩
      · rw [if_neg ht]
        exact hm
    · intro e he
      exact absurd he (List.not_mem_nil e)
  · show entries_from L (L.foldl
      (fun m p => if p.token_id ≠ none then insertA p.address p m else m) [])
    refine foldl_preserves_mem (fun m => entries_from L m) _ L ?_ L
      (fun a ha => ha) [] ?_
    · intro m p hp hm
      by_cases ht : p.token_id ≠ none
      · rw [if_pos ht]
        exact entries_from_insert L m p.address p hm ⟨p, hp, rfl⟩
      · rw [if_neg ht]
        exact hm
    · intro e he
      exact absurd he (List.not_mem_nil e)

/-- A loaded cursor row is a member of the table and matches the chain. -/
theorem load_chain_state_mem (chain_name : String) (db : DB) (s : ChainState)
    (h : load_chain_state chain_name db = some s) :
    s ∈ db.chain_states ∧ s.chain = chain_name := by
  unfold load_chain_state at h
  have h1 := List.mem_of_find?_eq_some h
  have h2 := List.find?_some h
  simp only [decide_eq_true_eq] at h2
  exact ⟨h1, h2⟩

/-- With the unique constraint on the `chain` column, two rows with the
same chain coincide. -/
theorem mem_chain_eq_unique (l : List ChainState)
    (huniq : l.Pairwise (fun a c => a.chain ≠ c.chain))
    (s t : ChainState) (hs : s ∈ l) (ht : t ∈ l) (hc : s.chain = t.chain) :
    s = t := by
  induction l with
  | nil => exact absurd hs (List.not_mem_nil s)
  | cons a rest ih =>
    rcases List.pairwise_cons.mp huniq with ⟨ha, hrest⟩
    rcases List.mem_cons.mp hs with rfl | hs2
    · rcases List.mem_cons.mp ht with rfl | ht2
      · rfl
      · exact absurd hc (ha t ht2)
    · rcases List.mem_cons.mp ht with rfl | ht2
      · exact absurd hc.symm (ha s hs2)
      · exact ih hrest hs2 ht2

/-- Case analysis of one `scan_chain` cycle: either the database is
untouched (no cursor row, or empty range), or the cursor row for the
chain is advanced past its previous value and the payment table is either
untouched or merged from a scan context drawn from the PENDING payments
of the chain. -/
theorem scan_chain_shape (b : Nat) (chain_name : String) (w3 : ChainRPC)
    (db : DB) (out : ScanOutcome) (db' : DB)
    (hrun : scan_chain b chain_name w3 db = Except.ok (out, db')) :
    db' = db ∨
    ∃ state : ChainState, load_chain_state chain_name db = some state ∧
      state.last_scanned_block <
        (calculate_scan_range b state.last_scanned_block w3.block_number).2 ∧
      db'.chain_states = set_last_scanned chain_name
        (calculate_scan_range b state.last_scanned_block w3.block_number).2
        db.chain_states ∧
      db'.tokens = db.tokens ∧
      (db'.payments = db.payments ∨
        ∃ ctx : PaymentScanContext,
          ctx_entries (db.payments.filter
            (fun p => p.status = PaymentStatus.pending ∧ p.chain = chain_name)) ctx ∧
          db'.payments = commit_payments ctx db.payments) := by
  unfold scan_chain at hrun
  cases hload : load_chain_state chain_name db with
  | none =>
    rw [hload] at hrun
    simp only [Except.ok.injEq, Prod.mk.injEq] at hrun
    exact Or.inl hrun.2.symm
  | some state =>
    rw [hload] at hrun
    simp only at hrun
    have hfst : (calculate_scan_range b state.last_scanned_block w3.block_number).1
        = state.last_scanned_block + 1 := by
      cases w3.block_number <;> rfl
    by_cases hr : (calculate_scan_range b state.last_scanned_block w3.block_number).2
        < (calculate_scan_range b state.last_scanned_block w3.block_number).1
    · rw [if_pos hr] at hrun
      simp only [Except.ok.injEq, Prod.mk.injEq] at hrun
      exact Or.inl hrun.2.symm
    · rw [if_neg hr] at hrun
      by_cases hp : (db.payments.filter
          (fun p => p.status = PaymentStatus.pending ∧ p.chain = chain_name)).isEmpty
      · rw [if_pos hp] at hrun
        simp only [Except.ok.injEq, Prod.mk.injEq] at hrun
        refine Or.inr ⟨state, rfl, by omega, ?_, ?_, Or.inl ?_⟩
        · rw [← hrun.2]
        · rw [← hrun.2]
        · rw [← hrun.2]
      · rw [if_neg hp] at hrun
        simp only [Except.ok.injEq, Prod.mk.injEq] at hrun
        refine Or.inr ⟨state, rfl, by omega, ?_, ?_,
          Or.inr ⟨(scan_blocks_for_payments w3
            (calculate_scan_range b state.last_scanned_block w3.block_number).1
            (calculate_scan_range b state.last_scanned_block w3.block_number).2
            (build_context (db.payments.filter
              (fun p => p.status = PaymentStatus.pending ∧ p.chain = chain_name))
              db.tokens)).1, ?_, ?_⟩⟩
        · rw [← hrun.2]
        · rw [← hrun.2]
        · exact scan_blocks_entries _ w3 _ _ _ (build_context_entries _ db.tokens)
        · rw [← hrun.2]

/-! ### C1: scan range and post-scan cursor -/

/-- C1 is false as stated: with chainHead 50, cursor 10, batchSize 20 the
code computes the range `(11, 31)` — `to_block = min(from_block +
batch_size, latest)` with `from_block = cursor + 1` — and `scan_chain`
commits `last_scanned_block = 31`, not `min(cursor + batchSize, head) = 30`. -/
theorem scan_range_scenario_counterexample :
    calculate_scan_range 20 10 (some 50) = (11, 31) ∧
    scan_chain 20 "eth" c1_w3 c1_db =
      Except.ok (ScanOutcome.noActivePayments,
        { chain_states := [{ id := 1, chain := "eth", last_scanned_block := 31 }],
          payments := [], tokens := [] }) ∧
    (31 : Nat) ≠ min (10 + 20) 50 := by
  exact ⟨rfl, rfl, by decide⟩

/-- C1 (amended): for a scan cycle with cursor `c`, batch size `b` and
chain head `h` with `c < h`, the scan range is `[c+1, min(c+1+b, h)]`
(one block more than the claimed `min(c+b, h)`), the blocks handed to the
per-block scanner are exactly the members of that interval, and
`scan_chain` commits `last_scanned_block = min(c+1+b, h)`; in particular
with chainHead 50, cursor 10, batchSize 20 the range is `[11, 31]` and the
post-scan cursor is 31. -/
theorem scan_range_formula (b c h : Nat) (hch : c < h)
    (chain_name : String) (w3 : ChainRPC) (db : DB) (state : ChainState)
    (hload : load_chain_state chain_name db = some state)
    (hlast : state.last_scanned_block = c)
    (hhead : w3.block_number = some h) :
    calculate_scan_range b c (some h) = (c + 1, min (c + 1 + b) h) ∧
    (∀ n, n ∈ scanned_block_numbers (c + 1) (min (c + 1 + b) h) ↔
      c + 1 ≤ n ∧ n ≤ min (c + 1 + b) h) ∧
    ∃ r : ScanOutcome × DB, scan_chain b chain_name w3 db = Except.ok r ∧
      r.2.chain_states =
        set_last_scanned chain_name (min (c + 1 + b) h) db.chain_states := by
  refine ⟨rfl, ?_, ?_⟩
  · intro n
    simp only [scanned_block_numbers, List.mem_range'_1]
    omega
  · simp only [scan_chain, hload, hhead, hlast, calculate_scan_range]
    rw [if_neg (by omega : ¬ min (c + 1 + b) h < c + 1)]
    by_cases hp : (db.payments.filter
        (fun p => p.status = PaymentStatus.pending ∧ p.chain = chain_name)).isEmpty
    · rw [if_pos hp]
      exact ⟨_, rfl, rfl⟩
    · rw [if_neg hp]
      exact ⟨_, rfl, rfl⟩

/-- Witness for `scan_range_formula` at the spec's scenario values. -/
theorem scan_range_formula_witness :
    (10 : Nat) < 50 ∧
    (calculate_scan_range 20 10 (some 50) = (11, min 31 50) ∧
    (∀ n, n ∈ scanned_block_numbers 11 (min 31 50) ↔ 11 ≤ n ∧ n ≤ min 31 50) ∧
    ∃ r : ScanOutcome × DB, scan_chain 20 "eth" c1_w3 c1_db = Except.ok r ∧
      r.2.chain_states = set_last_scanned "eth" (min 31 50) c1_db.chain_states) :=
  ⟨by decide, scan_range_formula 20 10 50 (by decide) "eth" c1_w3 c1_db c1_state
    rfl rfl rfl⟩

/-! ### C8: scanning a never-seeded chain -/

/-- C8 is false as stated: with no ChainState row for "ethereum",
`scan_chain` does not fail with a NotFound error — it returns
successfully, leaves the database untouched, and merely skips the chain. -/
theorem unseeded_chain_counterexample :
    scan_chain 20 "ethereum" c8_w3 c8_db =
      Except.ok (ScanOutcome.skippedNoState, c8_db) ∧
    scan_chain 20 "ethereum" c8_w3 c8_db ≠ Except.error ScanError.notFound := by
  have hrun : scan_chain 20 "ethereum" c8_w3 c8_db
      = Except.ok (ScanOutcome.skippedNoState, c8_db) := rfl
  exact ⟨hrun, by rw [hrun]; simp⟩

/-- C8 (amended): acquiring the chain cursor for a chain that was never
seeded yields no row, and `scan_chain` then logs and returns silently —
no error is raised and nothing is modified. -/
theorem unseeded_chain_skips (b : Nat) (chain_name : String) (w3 : ChainRPC)
    (db : DB) (h : load_chain_state chain_name db = none) :
    scan_chain b chain_name w3 db = Except.ok (ScanOutcome.skippedNoState, db) := by
  unfold scan_chain
  rw [h]

/-- Witness for `unseeded_chain_skips` on the empty database. -/
theorem unseeded_chain_skips_witness :
    load_chain_state "ethereum" c8_db = none ∧
    scan_chain 20 "ethereum" c8_w3 c8_db =
      Except.ok (ScanOutcome.skippedNoState, c8_db) :=
  ⟨rfl, unseeded_chain_skips 20 "ethereum" c8_w3 c8_db rfl⟩

/-! ### C5: webhook signature header -/

/-- C5: with a configured (non-empty) secret, the delivered request
carries an `X-Webhook-Signature` header whose value is the HMAC-SHA256
hex digest of the secret over exactly the serialized body that is sent;
with no secret, no such header is attached. -/
theorem webhook_signature_header (hmac_sha256_hex : String → String → String)
    (url data s : String) (hs : s ≠ "") :
    (send_webhook hmac_sha256_hex url data (some s)).body = data ∧
    ("X-Webhook-Signature",
        hmac_sha256_hex s (send_webhook hmac_sha256_hex url data (some s)).body)
      ∈ (send_webhook hmac_sha256_hex url data (some s)).headers ∧
    ∀ v, ("X-Webhook-Signature", v)
      ∉ (send_webhook hmac_sha256_hex url data none).headers := by
  refine ⟨rfl, ?_, ?_⟩
  · simp [send_webhook, hs]
  · intro v
    simp [send_webhook]

/-- Witness for `webhook_signature_header` at concrete inputs. -/
theorem webhook_signature_header_witness :
    "sec" ≠ "" ∧
    ((send_webhook (fun k m => k ++ m) "http://x" "BODY" (some "sec")).body = "BODY" ∧
    ("X-Webhook-Signature",
        (fun (k m : String) => k ++ m) "sec"
          ((send_webhook (fun k m => k ++ m) "http://x" "BODY" (some "sec")).body))
      ∈ (send_webhook (fun k m => k ++ m) "http://x" "BODY" (some "sec")).headers ∧
    ∀ v, ("X-Webhook-Signature", v)
      ∉ (send_webhook (fun k m => k ++ m) "http://x" "BODY" none).headers) :=
  ⟨by decide, webhook_signature_header (fun k m => k ++ m) "http://x" "BODY" "sec"
    (by decide)⟩

/-! ### C4: confirmation depth -/

/-- C4: for a DETECTED payment with detection block `d` and chain head
`latest`, the confirmation count is `latest - d + 1` (so `d = 100,
latest = 100` gives 1 and `d = 100, latest = 102` gives 3), the payment is
promoted to CONFIRMED exactly when that count reaches the configured
threshold, the count is persisted on promotion, and `confirm_payments`
applies this rule to every payment of the table. -/
theorem confirmations_formula (required : Int) (chain_name : String)
    (latest d : Nat) (db : DB) (p : Payment)
    (hst : p.status = PaymentStatus.detected) (hch : p.chain = chain_name)
    (hd : p.detected_in_block = some d) :
    ((confirm_rule required chain_name latest p).status = PaymentStatus.confirmed
        ↔ required ≤ (latest : Int) - (d : Int) + 1) ∧
    (required ≤ (latest : Int) - (d : Int) + 1 →
      (confirm_rule required chain_name latest p).confirmations
        = (latest : Int) - (d : Int) + 1) ∧
    (confirm_payments required chain_name (some latest) db).payments
      = db.payments.map (confirm_rule required chain_name latest) := by
  refine ⟨?_, ?_, rfl⟩ <;>
  · unfold confirm_rule
    rw [if_pos ⟨hst, hch⟩, hd]
    by_cases hc : required ≤ (latest : Int) - (d : Int) + 1 <;>
      simp [hc, hst]

/-- Witness for `confirmations_formula`: detection block 100, head 102,
threshold 1 yields promotion with 3 confirmations. -/
theorem confirmations_formula_witness :
    (102 : Int) - (100 : Int) + 1 = 3 ∧
    (((confirm_rule 1 "eth" 102 c4_p).status = PaymentStatus.confirmed
        ↔ (1 : Int) ≤ (102 : Int) - (100 : Int) + 1) ∧
    ((1 : Int) ≤ (102 : Int) - (100 : Int) + 1 →
      (confirm_rule 1 "eth" 102 c4_p).confirmations
        = (102 : Int) - (100 : Int) + 1) ∧
    (confirm_payments 1 "eth" (some 102) c4_db).payments
      = c4_db.payments.map (confirm_rule 1 "eth" 102)) :=
  ⟨by decide, confirmations_formula 1 "eth" 102 100 c4_db c4_p rfl rfl rfl⟩

/-! ### C7: expiry reaping -/

/-- C7: the reap cycle consults no chain RPC (`check_expired_payments`
takes only the clock and the database), never touches the cursor table,
and pointwise marks a payment EXPIRED exactly when its status is PENDING
or DETECTED and its expiry has passed, leaving every other payment
unchanged — across all chains, since the selection has no chain filter. -/
theorem expired_payments_reaped (now : Nat) (db : DB) (i : Nat)
    (hi : i < db.payments.length) :
    (check_expired_payments now db).chain_states = db.chain_states ∧
    ∃ hi' : i < (check_expired_payments now db).payments.length,
      (check_expired_payments now db).payments.get ⟨i, hi'⟩ =
        (let p := db.payments.get ⟨i, hi⟩
         if (p.status = PaymentStatus.pending ∨ p.status = PaymentStatus.detected)
             ∧ p.expires_at ≤ now then { p with status := PaymentStatus.expired }
         else p) := by
  refine ⟨rfl, ?_⟩
  have hlen : (check_expired_payments now db).payments.length
      = db.payments.length := by
    simp [check_expired_payments]
  refine ⟨hlen ▸ hi, ?_⟩
  simp [check_expired_payments, expire_rule]

/-- Witness for `expired_payments_reaped` on a two-payment table at a
clock past both expiries. -/
theorem expired_payments_reaped_witness :
    (0 : Nat) < c7_db.payments.length ∧
    ((check_expired_payments 2000 c7_db).chain_states = c7_db.chain_states ∧
    ∃ hi' : 0 < (check_expired_payments 2000 c7_db).payments.length,
      (check_expired_payments 2000 c7_db).payments.get ⟨0, hi'⟩ =
        (let p := c7_db.payments.get ⟨0, by decide⟩
         if (p.status = PaymentStatus.pending ∨ p.status = PaymentStatus.detected)
             ∧ p.expires_at ≤ 2000 then { p with status := PaymentStatus.expired }
         else p)) :=
  ⟨by decide, expired_payments_reaped 2000 c7_db 0 (by decide)⟩

/-! ### C10: null detection block is skipped -/

/-- C10: a DETECTED payment whose `detected_in_block` is null is left
untouched by the confirmation rule (`continue`), the confirmation cycle
still runs to completion as a total function, and every payment of the
table — in particular every other DETECTED payment — is still processed
by the same rule independently. -/
theorem confirm_skips_null_detection_block (required : Int)
    (chain_name : String) (latest : Nat) (db : DB) (p : Payment)
    (hst : p.status = PaymentStatus.detected) (hch : p.chain = chain_name)
    (hd : p.detected_in_block = none) :
    confirm_rule required chain_name latest p = p ∧
    ∀ i : Nat, ∀ hi : i < db.payments.length,
      ∃ hi' : i < (confirm_payments required chain_name (some latest) db).payments.length,
        (confirm_payments required chain_name (some latest) db).payments.get ⟨i, hi'⟩
          = confirm_rule required chain_name latest (db.payments.get ⟨i, hi⟩) := by
  constructor
  · unfold confirm_rule
    rw [if_pos ⟨hst, hch⟩, hd]
  · intro i hi
    have hlen : (confirm_payments required chain_name (some latest) db).payments.length
        = db.payments.length := by
      simp [confirm_payments]
    refine ⟨hlen ▸ hi, ?_⟩
    simp [confirm_payments]

/-- Witness for `confirm_skips_null_detection_block`: a table holding a
DETECTED payment with a null detection block next to a confirmable one;
the first is skipped while the second is promoted. -/
theorem confirm_skips_null_detection_block_witness :
    confirm_rule 1 "eth" 102 c10_p = c10_p ∧
    (∀ i : Nat, ∀ hi : i < c10_db.payments.length,
      ∃ hi' : i < (confirm_payments 1 "eth" (some 102) c10_db).payments.length,
        (confirm_payments 1 "eth" (some 102) c10_db).payments.get ⟨i, hi'⟩
          = confirm_rule 1 "eth" 102 (c10_db.payments.get ⟨i, hi⟩)) ∧
    (confirm_payments 1 "eth" (some 102) c10_db).payments =
      [c10_p,
       { c4_p with status := PaymentStatus.confirmed, confirmations := 3 }] :=
  ⟨(confirm_skips_null_detection_block 1 "eth" 102 c10_db c10_p rfl rfl rfl).1,
   (confirm_skips_null_detection_block 1 "eth" 102 c10_db c10_p rfl rfl rfl).2,
   by decide⟩

/-! ### C2: failure semantics of the scan cycle -/

/-- C2 is false as stated: scanning range [11, 12] while the fetch of
block 11 raises still commits `last_scanned_block = 12`, which is not
strictly less than the failing block 11 — the unprocessed block 11 is
skipped for good (the pending payment is also left undetected). -/
theorem failed_block_skipped_counterexample :
    c2_w3.get_block 11 = none ∧
    scan_chain 20 "eth" c2_w3 c2_db =
      Except.ok (ScanOutcome.scanned 0,
        { chain_states := [{ id := 1, chain := "eth", last_scanned_block := 12 }],
          payments := [c2_p], tokens := [] }) ∧
    ¬ (12 : Nat) < 11 := by
  exact ⟨rfl, rfl, by decide⟩

/-- C2 (amended): an RPC failure while fetching the chain head yields an
empty range and the cycle returns with the cursor (and everything else)
untouched; but a failure while fetching or processing an individual block
of a non-empty range is caught and logged inside the per-block scanner,
and the cursor is still committed to the end of the range — the failing
block is not retried on a later cycle. -/
theorem scan_failure_semantics (b : Nat) (chain_name : String) (w3 : ChainRPC)
    (db : DB) (state : ChainState)
    (hload : load_chain_state chain_name db = some state) :
    (w3.block_number = none →
      scan_chain b chain_name w3 db = Except.ok (ScanOutcome.emptyRange, db)) ∧
    (∀ h : Nat, w3.block_number = some h → state.last_scanned_block < h →
      ∃ (out : ScanOutcome) (payments' : List Payment),
        scan_chain b chain_name w3 db =
          Except.ok (out,
            { db with
                chain_states := set_last_scanned chain_name
                  (min (state.last_scanned_block + 1 + b) h) db.chain_states,
                payments := payments' })) := by
  constructor
  · intro hdown
    simp only [scan_chain, hload, hdown, calculate_scan_range]
    rw [if_pos (Nat.lt_succ_self _)]
  · intro h hhead hlt
    simp only [scan_chain, hload, hhead, calculate_scan_range]
    rw [if_neg (by omega : ¬ min (state.last_scanned_block + 1 + b) h
      < state.last_scanned_block + 1)]
    by_cases hp : (db.payments.filter
        (fun p => p.status = PaymentStatus.pending ∧ p.chain = chain_name)).isEmpty
    · rw [if_pos hp]
      exact ⟨_, _, rfl⟩
    · rw [if_neg hp]
      exact ⟨_, _, rfl⟩

/-- Witness for `scan_failure_semantics`: the head-failure branch leaves
the database untouched, and a cycle over [11, 12] with block 11 failing
still commits cursor `min(31, 12) = 12`. -/
theorem scan_failure_semantics_witness :
    (scan_chain 20 "eth" c2_w3_down c2_db
      = Except.ok (ScanOutcome.emptyRange, c2_db)) ∧
    ∃ (out : ScanOutcome) (payments' : List Payment),
      scan_chain 20 "eth" c2_w3 c2_db =
        Except.ok (out,
          { c2_db with
              chain_states := set_last_scanned "eth" (min (10 + 1 + 20) 12)
                c2_db.chain_states,
              payments := payments' }) :=
  ⟨(scan_failure_semantics 20 "eth" c2_w3_down c2_db c1_state rfl).1 rfl,
   (scan_failure_semantics 20 "eth" c2_w3 c2_db c1_state rfl).2 12 rfl (by decide)⟩

/-! ### C3: PENDING-only matching makes detection idempotent -/

/-- C3: only PENDING payments are candidates for matching, so a payment
already DETECTED (or in any other non-PENDING status) before a scan cycle
is left exactly unchanged by that cycle, whatever range the cycle covers —
rescanning the same or an overlapping range cannot re-detect it, so the
PENDING→DETECTED transition happens exactly once.  The id-uniqueness
hypothesis models the primary-key constraint on the payment table. -/
theorem detected_payment_unchanged_by_rescan (b : Nat) (chain_name : String)
    (w3 : ChainRPC) (db : DB) (out : ScanOutcome) (db' : DB)
    (hrun : scan_chain b chain_name w3 db = Except.ok (out, db'))
    (i : Nat) (p : Payment) (hp : db.payments.get? i = some p)
    (hstatus : p.status ≠ PaymentStatus.pending)
    (hid : ∀ q ∈ db.payments, q.id = p.id → q = p) :
    db'.payments.get? i = some p := by
  rcases scan_chain_shape b chain_name w3 db out db' hrun with
    rfl | ⟨state, -, -, -, -, hpay⟩
  · exact hp
  rcases hpay with hsame | ⟨ctx, hctx, hcommit⟩
  · rw [hsame]
    exact hp
  · have hfind : (ctx.native_payments ++ ctx.erc20_payments).find?
        (fun e => e.2.id = p.id) = none := by
      cases hf : (ctx.native_payments ++ ctx.erc20_payments).find?
          (fun e => e.2.id = p.id) with
      | none => rfl
      | some e =>
        exfalso
        have hmem := List.mem_of_find?_eq_some hf
        have hpe := List.find?_some hf
        simp only [decide_eq_true_eq] at hpe
        have he2 : ∃ q ∈ db.payments.filter
            (fun q => q.status = PaymentStatus.pending ∧ q.chain = chain_name),
            e.2.id = q.id := by
          rcases List.mem_append.mp hmem with h1 | h2
          · exact hctx.1 e h1
          · exact hctx.2 e h2
        rcases he2 with ⟨q, hqmem, hqid⟩
        have hq := List.mem_filter.mp hqmem
        have hq2 := hq.2
        simp only [decide_eq_true_eq] at hq2
        have hqp : q = p := hid q hq.1 (by rw [← hqid]; exact hpe)
        exact hstatus (by rw [← hqp]; exact hq2.1)
    rw [hcommit]
    unfold commit_payments
    rw [List.get?_map, hp, Option.map_some', hfind]

/-- Witness for `detected_payment_unchanged_by_rescan`: rescanning range
[11, 12] leaves the payment already DETECTED in block 7 untouched while
the cursor advances. -/
theorem detected_payment_unchanged_witness :
    c3_det.status ≠ PaymentStatus.pending ∧
    ({ chain_states := [{ id := 1, chain := "eth", last_scanned_block := 12 }],
       payments := [c3_det, c2_p], tokens := [] } : DB).payments.get? 0
      = some c3_det :=
  ⟨by decide,
   detected_payment_unchanged_by_rescan 20 "eth" c2_w3 c3_db
     (ScanOutcome.scanned 0)
     { chain_states := [{ id := 1, chain := "eth", last_scanned_block := 12 }],
       payments := [c3_det, c2_p], tokens := [] }
     rfl 0 c3_det rfl (by decide) (by decide)⟩

/-! ### C6: cursor monotonicity -/

/-- C6: under the unique constraint on the chain column, every cursor row
keeps its chain and never decreases across a `scan_chain` cycle: the
committed `last_scanned_block` is never smaller than the value read at
the start of the cycle. -/
theorem last_scanned_block_monotone (b : Nat) (chain_name : String)
    (w3 : ChainRPC) (db : DB)
    (huniq : db.chain_states.Pairwise (fun a c => a.chain ≠ c.chain))
    (out : ScanOutcome) (db' : DB)
    (hrun : scan_chain b chain_name w3 db = Except.ok (out, db'))
    (i : Nat) (s : ChainState) (hs : db.chain_states.get? i = some s) :
    ∃ s' : ChainState, db'.chain_states.get? i = some s' ∧
      s'.chain = s.chain ∧ s.last_scanned_block ≤ s'.last_scanned_block := by
  rcases scan_chain_shape b chain_name w3 db out db' hrun with
    rfl | ⟨state, hload, hlt, hcs, -, -⟩
  · exact ⟨s, hs, rfl, le_refl _⟩
  · have hmem := load_chain_state_mem chain_name db state hload
    by_cases hc : s.chain = chain_name
    · have hseq : s = state := mem_chain_eq_unique db.chain_states huniq s state
        (List.get?_mem hs) hmem.1 (hc.trans hmem.2.symm)
      refine ⟨{ s with last_scanned_block :=
          (calculate_scan_range b state.last_scanned_block w3.block_number).2 },
        ?_, rfl, ?_⟩
      · rw [hcs]
        unfold set_last_scanned
        rw [List.get?_map, hs]
        simp [hc]
      · show s.last_scanned_block ≤
          (calculate_scan_range b state.last_scanned_block w3.block_number).2
        rw [hseq]
        exact Nat.le_of_lt hlt
    · refine ⟨s, ?_, rfl, le_refl _⟩
      rw [hcs]
      unfold set_last_scanned
      rw [List.get?_map, hs]
      simp [hc]

/-- Witness for `last_scanned_block_monotone`: the cursor row moves from
10 to 12 across the cycle over [11, 12]. -/
theorem last_scanned_block_monotone_witness :
    c2_db.chain_states.get? 0 = some c1_state ∧
    ∃ s' : ChainState,
      ({ chain_states := [{ id := 1, chain := "eth", last_scanned_block := 12 }],
         payments := [c2_p], tokens := [] } : DB).chain_states.get? 0 = some s' ∧
      s'.chain = c1_state.chain ∧
      c1_state.last_scanned_block ≤ s'.last_scanned_block :=
  ⟨rfl,
   last_scanned_block_monotone 20 "eth" c2_w3 c2_db (by simp [c2_db])
     (ScanOutcome.scanned 0)
     { chain_states := [{ id := 1, chain := "eth", last_scanned_block := 12 }],
       payments := [c2_p], tokens := [] }
     rfl 0 c1_state rfl⟩

/-! ### C9: ERC20 Transfer log detection -/

/-- C9: scanning block 5 with an ERC20 Transfer log whose indexed
recipient topic `t` decodes to address `A` and whose data decodes to
value `v`, while a PENDING token payment at address `A` requests `a ≤ v`
base units and the log's emitting contract equals that payment's token
contract, transitions the payment to DETECTED with `detected_in_block`
equal to the block containing the log. -/
theorem erc20_transfer_detection (b A contract t0 t1 t v a e : Nat)
    (hdec : decode_topic_address t = A) (hamt : a ≤ v) :
    scan_chain b "eth" (c9_w3 contract t0 t1 t v) (c9_db A a e contract) =
      Except.ok (ScanOutcome.scanned 1,
        { chain_states := [{ id := 1, chain := "eth", last_scanned_block := 5 }],
          payments := [{ c9_payment A a e with
            status := PaymentStatus.detected, detected_in_block := some 5 }],
          tokens := [c9_token contract] }) := by
  have hmin1 : min (4 + 1 + b) 5 = 5 := by omega
  have hmin2 : min (5 + b) 5 = 5 := by omega
  have hmin3 : min (b + 5) 5 = 5 := by omega
  simp [scan_chain, load_chain_state, c9_db, c9_w3, c9_token, c9_log,
    c9_payment, calculate_scan_range, hmin1, hmin2, hmin3, build_context,
    insertA, scanned_block_numbers, scan_blocks_for_payments,
    scan_single_block, detect_native_in_block, detect_erc20_in_logs,
    hdec, hamt, lookupA, commit_payments, set_last_scanned, List.range']

/-- Witness for `erc20_transfer_detection`: topic 3 decodes to address 3,
value 100 covers the requested 50 base units, and the payment is DETECTED
in block 5. -/
theorem erc20_transfer_detection_witness :
    decode_topic_address 3 = 3 ∧ (50 : Nat) ≤ 100 ∧
    scan_chain 20 "eth" (c9_w3 9 111 222 3 100) (c9_db 3 50 1000 9) =
      Except.ok (ScanOutcome.scanned 1,
        { chain_states := [{ id := 1, chain := "eth", last_scanned_block := 5 }],
          payments := [{ c9_payment 3 50 1000 with
            status := PaymentStatus.detected, detected_in_block := some 5 }],
          tokens := [c9_token 9] }) :=
  ⟨by decide, by decide,
   erc20_transfer_detection 20 3 9 111 222 3 100 50 1000 (by decide) (by decide)⟩

end CTrip
